/- Verification development for src/bin/kube.py: a shallow embedding of the
   network-discovery utilities in Lean 4, together with theorems checking the
   documented behaviour of each function.  Pure helpers are embedded directly;
   the Kubernetes API, the cloud-metadata fetch, the resolver file and the
   process environment are modelled as explicit inputs, and Python exceptions
   are modelled with Except. -/
import Mathlib

namespace Kube

/-- Whitespace characters recognised by the Python str.split method. -/
def isPyWs (c : Char) : Bool :=
  c == ' ' || c == '\t' || c == '\n' || c == '\r' || c == '\x0b' || c == '\x0c'

/-- Split a character list at every occurrence of the separator character. -/
def splitOnChar (sep : Char) : List Char → List (List Char)
  | [] => [[]]
  | c :: rest =>
    if c == sep then [] :: splitOnChar sep rest
    else
      match splitOnChar sep rest with
      | [] => [[c]]
      | g :: gs => (c :: g) :: gs

/-- Python line.split with maxsplit 1: drop leading whitespace, take the first
    whitespace-delimited token, then the remainder after the separator run;
    a whitespace-only remainder is dropped. -/
def pySplitMax1 (s : String) : List String :=
  let cs := s.data.dropWhile isPyWs
  match cs with
  | [] => []
  | _ :: _ =>
    let tok := cs.takeWhile (fun c => ! isPyWs c)
    let rest := (cs.dropWhile (fun c => ! isPyWs c)).dropWhile isPyWs
    if rest.isEmpty then [String.mk tok] else [String.mk tok, String.mk rest]

/-- Python value.rstrip restricted to the newline character. -/
def rstripNewline (s : String) : String :=
  String.mk ((s.data.reverse.dropWhile (fun c => c == '\n')).reverse)

/-- Python str.endswith, modelled on the character list. -/
def pyEndsWith (s suffix : String) : Bool :=
  List.isSuffixOf suffix.data s.data

/-- Characters before the first occurrence of the separator sequence:
    python s.split(sep, 1)[0]. -/
def takeUntilSub (sep : List Char) : List Char → List Char
  | [] => []
  | c :: rest =>
    if List.isPrefixOf sep (c :: rest) then []
    else c :: takeUntilSub sep rest

/-- provider_id.split("://", 1)[0]: the scheme of a providerID string. -/
def schemeOf (s : String) : String :=
  String.mk (takeUntilSub ("://".data) s.data)

/-- Decimal digit test for dotted-quad parsing. -/
def isDigitCh (c : Char) : Bool := 48 ≤ c.toNat && c.toNat ≤ 57

/-- Value of a digit string (most significant first). -/
def digitsToNat (cs : List Char) : Nat :=
  cs.foldl (fun a c => a * 10 + (c.toNat - 48)) 0

/-- Parse a nonempty all-digit character list. -/
def parseDigits (cs : List Char) : Option Nat :=
  if ! cs.isEmpty && cs.all isDigitCh then some (digitsToNat cs) else none

/-- Parse one octet of a dotted quad (0 to 255). -/
def parseOctet (cs : List Char) : Option Nat :=
  match parseDigits cs with
  | some n => if n ≤ 255 then some n else none
  | none => none

/-- Parse an a.b.c.d dotted quad into its 32-bit value. -/
def parseIPv4Chars (cs : List Char) : Option Nat :=
  match splitOnChar '.' cs with
  | [a, b, c, d] =>
    match parseOctet a, parseOctet b, parseOctet c, parseOctet d with
    | some x, some y, some z, some w => some (((x * 256 + y) * 256 + z) * 256 + w)
    | _, _, _, _ => none
  | _ => none

/-- Model of a netaddr IPNetwork value: the address as written in the CIDR
    string (host bits kept) plus the mask length. -/
structure IPNetwork where
  value : Nat
  plen : Nat
deriving DecidableEq

/-- Number of addresses in the network. -/
def IPNetwork.blockSize (n : IPNetwork) : Nat := 2 ^ (32 - n.plen)

/-- The network address: the value with host bits cleared. -/
def IPNetwork.network (n : IPNetwork) : Nat := n.value / n.blockSize * n.blockSize

/-- The subnet mask as a 32-bit value. -/
def IPNetwork.netmask (n : IPNetwork) : Nat := 2 ^ 32 - n.blockSize

/-- net.first in netaddr: the lowest address of the network. -/
def IPNetwork.first (n : IPNetwork) : Nat := n.network

/-- net.last in netaddr: the highest address of the network. -/
def IPNetwork.last (n : IPNetwork) : Nat := n.network + (n.blockSize - 1)

/-- Parse an a.b.c.d/p CIDR string, as netaddr IPNetwork does for the
    slash form used throughout kube.py. -/
def parseIPNetwork (s : String) : Option IPNetwork :=
  match splitOnChar '/' s.data with
  | [ipPart, lenPart] =>
    match parseIPv4Chars ipPart, parseDigits lenPart with
    | some ip, some p => if p ≤ 32 then some ⟨ip, p⟩ else none
    | _, _ => none
  | _ => none

/-- Decimal string of a small number (an octet). -/
def octetToString (n : Nat) : String :=
  if n < 10 then String.mk [Char.ofNat (48 + n)]
  else if n < 100 then String.mk [Char.ofNat (48 + n / 10), Char.ofNat (48 + n % 10)]
  else String.mk [Char.ofNat (48 + n / 100), Char.ofNat (48 + n / 10 % 10), Char.ofNat (48 + n % 10)]

/-- Dotted-quad string of a 32-bit value: str of a netaddr IPAddress. -/
def formatIPv4 (n : Nat) : String :=
  octetToString (n / 16777216 % 256) ++ "." ++ octetToString (n / 65536 % 256) ++ "."
    ++ octetToString (n / 256 % 256) ++ "." ++ octetToString (n % 256)

/-- str(net.network) and str(net.netmask) of an already-parsed network. -/
def network_and_mask_net (net : IPNetwork) : String × String :=
  (formatIPv4 net.network, formatIPv4 net.netmask)

/-- network_and_mask from kube.py: parse the CIDR string and return the
    network address and subnet mask as strings.  The parse failure that
    netaddr reports by raising is modelled as none. -/
def network_and_mask (cidr : String) : Option (String × String) :=
  match parseIPNetwork cidr with
  | some net => some (network_and_mask_net net)
  | none => none

/-- Python exceptions that the script can raise or handle.  IOError covers
    OSError and its urllib subclasses; kubeHTTPError is the pykube HTTPError
    class (distinct from urllib errors); keyError is a missing dict key;
    addrFormatError is the netaddr parse failure; indexError is raised by
    netaddr IPAddress arithmetic when the result leaves the address space. -/
inductive PyErr
  | ioError
  | kubeHTTPError (msg : String)
  | keyError
  | addrFormatError
  | indexError
deriving DecidableEq

/-- Decidable equality for Except values, used to evaluate runs on concrete
    inputs. -/
instance exceptDecEq {ε α : Type} [DecidableEq ε] [DecidableEq α] :
    DecidableEq (Except ε α) := fun x y =>
  match x, y with
  | Except.ok a, Except.ok b =>
    if h : a = b then isTrue (congrArg Except.ok h)
    else isFalse (fun hc => h (Except.ok.inj hc))
  | Except.error a, Except.error b =>
    if h : a = b then isTrue (congrArg Except.error h)
    else isFalse (fun hc => h (Except.error.inj hc))
  | Except.ok _, Except.error _ => isFalse (fun hc => Except.noConfusion hc)
  | Except.error _, Except.ok _ => isFalse (fun hc => Except.noConfusion hc)

/-- Error message fragment for an already-allocated cluster IP. -/
def ALLOCATED_ERR : String := "provided IP is already allocated"

def VPN_HOST_ENV : String := "OVPN_HOST"
def DNS_ENV : String := "KUBE_DNS"
def DNS_SEARCH_ARR_ENV : String := "DNS_SEARCH_ARR"
def DNS_SEARCH_ENV : String := "KUBE_DNS_SEARCH"
def SVC_NETWORK_ENV : String := "KUBE_SVC_NET"
def SVC_MASK_ENV : String := "KUBE_SVC_MASK"

/-- Outcome of one Service create attempt against the cluster: either the
    create succeeds and the created Service carries the given cluster IP,
    or the API rejects it with a pykube HTTPError message. -/
inductive CreateResult
  | ok (clusterIP : Int)
  | kubeErr (msg : String)
deriving DecidableEq

/-- The cluster as seen by the probe: whether the well-known probe Service is
    left over from a prior run, and how a create at a requested cluster IP
    behaves.  A target of none models the empty-string default target. -/
structure KubeApi where
  probeExists : Bool
  createResult : Option Int → CreateResult

/-- Observable Kubernetes API operations issued by one probe. -/
inductive Event
  | checkExists
  | deleteProbe
  | createSvc (target : Option Int)
  | readClusterIP
deriving DecidableEq

/-- test_service from kube.py, instrumented with the list of API operations it
    performs: delete any leftover probe Service, create a Service requesting
    the target cluster IP, read the assigned IP back and delete the Service.
    A pykube HTTPError ending in ALLOCATED_ERR yields the target itself when
    ignore_allocated is set; any other HTTPError yields none (python False).
    IPAddress applied to the empty default target would raise, modelled as
    addrFormatError. -/
def test_service_trace (api : KubeApi) (target_ip : Option Int)
    (ignore_allocated : Bool) : Except PyErr (Option Int) × List Event :=
  let pre : List Event :=
    Event.checkExists :: (if api.probeExists then [Event.deleteProbe] else [])
  match api.createResult target_ip with
  | CreateResult.ok readIp =>
      (Except.ok (some readIp),
        pre ++ [Event.createSvc target_ip, Event.readClusterIP, Event.deleteProbe])
  | CreateResult.kubeErr msg =>
      if pyEndsWith msg ALLOCATED_ERR && ignore_allocated then
        match target_ip with
        | some ip => (Except.ok (some ip), pre ++ [Event.createSvc target_ip])
        | none => (Except.error PyErr.addrFormatError, pre ++ [Event.createSvc target_ip])
      else (Except.ok none, pre ++ [Event.createSvc target_ip])

/-- test_service from kube.py: the returned value only. -/
def test_service (api : KubeApi) (target_ip : Option Int)
    (ignore_allocated : Bool) : Except PyErr (Option Int) :=
  (test_service_trace api target_ip ignore_allocated).1

/-- A probe of one concrete address with the allocated error ignored counts
    as a success exactly when test_service returns a truthy IP. -/
def probeOk (api : KubeApi) (ip : Int) : Bool :=
  match test_service api (some ip) true with
  | Except.ok (some _) => true
  | _ => false

/-- netaddr IPAddress arithmetic boundary validation: adding or subtracting
    an offset from an IPAddress yields the new address only when it stays
    inside the 32-bit address space, and raises IndexError otherwise
    (2 to the power 32 is 4294967296). -/
def ipAddrArith (r : Int) : Except PyErr Int :=
  if 0 ≤ r ∧ r < 4294967296 then Except.ok r else Except.error PyErr.indexError

/-- check_service_iprange from kube.py on an already-parsed network,
    instrumented with the probe operations performed: probe first - 1
    (must fail), first + 1 (must succeed), last - 1 (must succeed) and
    last + 1 (must fail), short-circuiting on the first deviation; a
    deviation yields none (python False), full agreement yields the net.
    Each probe address is computed with IPAddress arithmetic at its call
    site, so a result outside the address space raises IndexError there,
    before that probe runs. -/
def check_service_iprange_net_trace (api : KubeApi) (net : IPNetwork) :
    Except PyErr (Option IPNetwork) × List Event :=
  match ipAddrArith ((net.first : Int) - 1) with
  | Except.error e => (Except.error e, [])
  | Except.ok a1 =>
    match test_service_trace api (some a1) true with
    | (Except.error e, t1) => (Except.error e, t1)
    | (Except.ok r1, t1) =>
      if r1.isSome then (Except.ok none, t1)
      else
        match ipAddrArith ((net.first : Int) + 1) with
        | Except.error e => (Except.error e, t1)
        | Except.ok a2 =>
          match test_service_trace api (some a2) true with
          | (Except.error e, t2) => (Except.error e, t1 ++ t2)
          | (Except.ok r2, t2) =>
            if r2.isNone then (Except.ok none, t1 ++ t2)
            else
              match ipAddrArith ((net.last : Int) - 1) with
              | Except.error e => (Except.error e, t1 ++ t2)
              | Except.ok a3 =>
                match test_service_trace api (some a3) true with
                | (Except.error e, t3) => (Except.error e, t1 ++ t2 ++ t3)
                | (Except.ok r3, t3) =>
                  if r3.isNone then (Except.ok none, t1 ++ t2 ++ t3)
                  else
                    match ipAddrArith ((net.last : Int) + 1) with
                    | Except.error e => (Except.error e, t1 ++ t2 ++ t3)
                    | Except.ok a4 =>
                      match test_service_trace api (some a4) true with
                      | (Except.error e, t4) => (Except.error e, t1 ++ t2 ++ t3 ++ t4)
                      | (Except.ok r4, t4) =>
                        if r4.isSome then (Except.ok none, t1 ++ t2 ++ t3 ++ t4)
                        else (Except.ok (some net), t1 ++ t2 ++ t3 ++ t4)

/-- check_service_iprange on a CIDR string: IPNetwork(cidr) is parsed first
    and a parse failure raises, modelled as addrFormatError. -/
def check_service_iprange_trace (api : KubeApi) (cidr : String) :
    Except PyErr (Option IPNetwork) × List Event :=
  match parseIPNetwork cidr with
  | none => (Except.error PyErr.addrFormatError, [])
  | some net => check_service_iprange_net_trace api net

/-- check_service_iprange from kube.py: the returned value only. -/
def check_service_iprange (api : KubeApi) (cidr : String) :
    Except PyErr (Option IPNetwork) :=
  (check_service_iprange_trace api cidr).1

/-- The cluster data that detect_cloud_provider reads: the nodeName field of
    the own Pod and, per node name, the providerID field of that Node.  An ok
    none means the field is missing so the dict access raises KeyError; an
    error is an exception raised while fetching the object. -/
structure ClusterInfo where
  podNodeName : Except PyErr (Option String)
  nodeProviderID : String → Except PyErr (Option String)

/-- detect_cloud_provider from kube.py: read the own Pod, special-case the
    minikubevm node name, else take the scheme of the Node providerID.
    The surrounding try catches KeyError only, so a missing field yields
    none while fetch exceptions propagate. -/
def detect_cloud_provider (c : ClusterInfo) : Except PyErr (Option String) :=
  match c.podNodeName with
  | Except.error e => Except.error e
  | Except.ok none => Except.ok none
  | Except.ok (some node_name) =>
    if node_name = "minikubevm" then Except.ok (some "minikube")
    else
      match c.nodeProviderID node_name with
      | Except.error e => Except.error e
      | Except.ok none => Except.ok none
      | Except.ok (some pid) => Except.ok (some (schemeOf pid))

/-- The resolver file as the script sees it: either opening it raises IOError
    or it yields a list of lines (each with its trailing newline). -/
inductive ResolvFile
  | ioError
  | content (lines : List String)

/-- The key-value pair contributed by one resolver line: the first token and
    the remainder with trailing newlines stripped, or nothing when the line
    has no value after the keyword. -/
def lineEntry (line : String) : Option (String × String) :=
  match pySplitMax1 line with
  | [k, v] => some (k, rstripNewline v)
  | _ => none

/-- get_resolv from kube.py: parse the resolver file into directive entries
    in line order; an IOError is swallowed and yields the empty dict. -/
def get_resolv (f : ResolvFile) : List (String × String) :=
  match f with
  | ResolvFile.ioError => []
  | ResolvFile.content lines =>
      lines.foldl (fun acc line =>
        match lineEntry line with
        | some kv => acc ++ [kv]
        | none => acc) []

/-- Python dict get over the entry list: the value of the last entry with the
    given key, since a later assignment overwrites an earlier one. -/
def dictGet (d : List (String × String)) (k : String) : Option String :=
  d.foldl (fun r p => if p.1 = k then some p.2 else r) none

/-- gce_kubeenv from kube.py: fetch the kube-env attribute from the GCE
    metadata service and parse it as YAML.  The function installs no handler,
    so the fetch outcome, error or dictionary, passes through unchanged. -/
def gce_kubeenv (fetch : Except PyErr (List (String × String))) :
    Except PyErr (List (String × String)) :=
  fetch

/-- All external inputs of one run: the process environment, the resolver
    file, the pod and node data, the probing API and the GCE metadata fetch. -/
structure World where
  env : String → Option String
  resolvFile : ResolvFile
  cluster : ClusterInfo
  api : KubeApi
  gceMeta : Except PyErr (List (String × String))

/-- The body of find_services_cidr before its exception handler, with the
    probe operations performed: dispatch on the detected provider; for gce
    probe a sample IP then validate the metadata range; for aws validate
    10.3.0.0/24 then 10.0.0.0/16; for minikube validate 10.0.0.1/24;
    otherwise report no result. -/
def find_services_cidr_body_trace (w : World) :
    Except PyErr (Option IPNetwork) × List Event :=
  match detect_cloud_provider w.cluster with
  | Except.error e => (Except.error e, [])
  | Except.ok provider =>
    if provider = some "gce" then
      match test_service_trace w.api none false with
      | (Except.error e, t0) => (Except.error e, t0)
      | (Except.ok svc_ip, t0) =>
        if svc_ip.isSome then
          match gce_kubeenv w.gceMeta with
          | Except.error e => (Except.error e, t0)
          | Except.ok kubeenv =>
            match dictGet kubeenv "SERVICE_CLUSTER_IP_RANGE" with
            | none => (Except.error PyErr.keyError, t0)
            | some ip_range =>
              match check_service_iprange_trace w.api ip_range with
              | (r, t) => (r, t0 ++ t)
        else (Except.ok none, t0)
    else if provider = some "aws" then
      match check_service_iprange_trace w.api "10.3.0.0/24" with
      | (Except.error e, t1) => (Except.error e, t1)
      | (Except.ok ip_range, t1) =>
        if ip_range.isNone then
          match check_service_iprange_trace w.api "10.0.0.0/16" with
          | (Except.error e, t2) => (Except.error e, t1 ++ t2)
          | (Except.ok r2, t2) => (Except.ok r2, t1 ++ t2)
        else (Except.ok ip_range, t1)
    else if provider = some "minikube" then
      check_service_iprange_trace w.api "10.0.0.1/24"
    else (Except.ok none, [])

/-- find_services_cidr from kube.py: the body wrapped in the handler that
    catches only the pykube HTTPError class, prints it and returns False;
    every other exception propagates. -/
def find_services_cidr_trace (w : World) :
    Except PyErr (Option IPNetwork) × List Event :=
  match find_services_cidr_body_trace w with
  | (Except.error (PyErr.kubeHTTPError _), t) => (Except.ok none, t)
  | r => r

/-- find_services_cidr from kube.py: the returned value only. -/
def find_services_cidr (w : World) : Except PyErr (Option IPNetwork) :=
  (find_services_cidr_trace w).1

/-- The python test for an unset or empty environment value. -/
def isNoneOrEmpty (o : Option String) : Bool :=
  match o with
  | none => true
  | some s => s.isEmpty

/-- Python percent-s formatting of a value that may be None. -/
def pyStrOpt (o : Option String) : String :=
  match o with
  | some s => s
  | none => "None"

/-- export_vars from kube.py: build the eval-able export block.  KUBE_DNS is
    emitted from the resolver nameserver entry when the variable is unset or
    empty and the entry exists; DNS_SEARCH_ARR is emitted whenever the
    variable is unset or empty, formatting the KUBE_DNS_SEARCH value, else
    the resolver search entry, else None; the service network and mask are
    emitted per variable when a CIDR was found. -/
def export_vars (w : World) : Except PyErr String :=
  let resolv := get_resolv w.resolvFile
  let out := ""
  let out :=
    if isNoneOrEmpty (w.env DNS_ENV) then
      match dictGet resolv "nameserver" with
      | some d => out ++ "export " ++ DNS_ENV ++ "=\"" ++ d ++ "\"\n"
      | none => out
    else out
  let out :=
    if isNoneOrEmpty (w.env DNS_SEARCH_ARR_ENV) then
      let search := w.env DNS_SEARCH_ENV
      let search := if isNoneOrEmpty search then dictGet resolv "search" else search
      out ++ "export " ++ DNS_SEARCH_ARR_ENV ++ "=(\t" ++ pyStrOpt search ++ "\t)\n"
    else out
  match find_services_cidr w with
  | Except.error e => Except.error e
  | Except.ok none => Except.ok out
  | Except.ok (some net) =>
    let nm := network_and_mask_net net
    let out :=
      if isNoneOrEmpty (w.env SVC_NETWORK_ENV) then
        out ++ "export " ++ SVC_NETWORK_ENV ++ "=\"" ++ nm.1 ++ "\"\n"
      else out
    let out :=
      if isNoneOrEmpty (w.env SVC_MASK_ENV) then
        out ++ "export " ++ SVC_MASK_ENV ++ "=\"" ++ nm.2 ++ "\"\n"
      else out
    Except.ok out

/-- Amended exporter description, KUBE_DNS segment: emitted only when the
    variable is unset or empty and the resolver has a nameserver entry. -/
def spec_dns_line (w : World) : String :=
  if isNoneOrEmpty (w.env DNS_ENV) then
    match dictGet (get_resolv w.resolvFile) "nameserver" with
    | some d => "export " ++ DNS_ENV ++ "=\"" ++ d ++ "\"\n"
    | none => ""
  else ""

/-- Amended exporter description, DNS_SEARCH_ARR segment: whenever the
    variable is unset or empty an assignment is emitted, holding the
    KUBE_DNS_SEARCH value, else the resolver search entry, else the literal
    text None. -/
def spec_search_line (w : World) : String :=
  if isNoneOrEmpty (w.env DNS_SEARCH_ARR_ENV) then
    "export " ++ DNS_SEARCH_ARR_ENV ++ "=(\t"
      ++ pyStrOpt (if isNoneOrEmpty (w.env DNS_SEARCH_ENV) then
                     dictGet (get_resolv w.resolvFile) "search"
                   else w.env DNS_SEARCH_ENV)
      ++ "\t)\n"
  else ""

/-- Amended exporter description, KUBE_SVC_NET segment: emitted only when a
    CIDR was discovered and the variable is unset or empty. -/
def spec_net_line (w : World) (c : Option IPNetwork) : String :=
  match c with
  | some net =>
    if isNoneOrEmpty (w.env SVC_NETWORK_ENV) then
      "export " ++ SVC_NETWORK_ENV ++ "=\"" ++ (network_and_mask_net net).1 ++ "\"\n"
    else ""
  | none => ""

/-- Amended exporter description, KUBE_SVC_MASK segment: emitted only when a
    CIDR was discovered and the variable is unset or empty. -/
def spec_mask_line (w : World) (c : Option IPNetwork) : String :=
  match c with
  | some net =>
    if isNoneOrEmpty (w.env SVC_MASK_ENV) then
      "export " ++ SVC_MASK_ENV ++ "=\"" ++ (network_and_mask_net net).2 ++ "\"\n"
    else ""
  | none => ""

/-- The value of the last resolver line carrying the given directive keyword:
    scanning the lines in order, a later matching line overwrites an earlier
    one; the value has trailing newlines stripped, and a keyword-only line
    contributes nothing. -/
def lastDirectiveValue (lines : List String) (k : String) : Option String :=
  lines.foldl (fun r line =>
    match pySplitMax1 line with
    | [k2, v] => if k2 = k then some (rstripNewline v) else r
    | _ => r) none

/-- An empty process environment. -/
def envNone : String → Option String := fun _ => none

/-- A cluster where the own Pod has no nodeName field. -/
def clusterUnknown : ClusterInfo := ⟨Except.ok none, fun _ => Except.ok none⟩

/-- A cluster on GCE: nodeName present, providerID with scheme gce. -/
def clusterGce : ClusterInfo :=
  ⟨Except.ok (some "gke-node-1"), fun _ => Except.ok (some "gce://proj/zone/inst")⟩

/-- A cluster on AWS: nodeName present, providerID with scheme aws. -/
def clusterAws : ClusterInfo :=
  ⟨Except.ok (some "ip-10-0-0-1"), fun _ => Except.ok (some "aws:///us-west-2a/i-0abc")⟩

/-- A cluster whose Pod runs on the minikubevm node; fetching the Node would
    even raise, showing the providerID is never consulted. -/
def clusterMinikubeVm : ClusterInfo :=
  ⟨Except.ok (some "minikubevm"), fun _ => Except.error (PyErr.kubeHTTPError "boom")⟩

/-- An API on which every create succeeds at the requested address. -/
def apiAllOk : KubeApi :=
  ⟨false, fun t => CreateResult.ok (match t with | some i => i | none => 7)⟩

/-- An API on which every create fails with a plain HTTP error. -/
def apiAllErr : KubeApi := ⟨true, fun _ => CreateResult.kubeErr "boom"⟩

/-- An API with a leftover probe Service on which every create succeeds. -/
def apiLeftover : KubeApi := ⟨true, fun _ => CreateResult.ok 9⟩

/-- An API on which every create fails reporting the IP already allocated. -/
def apiAllocErr : KubeApi :=
  ⟨false, fun _ => CreateResult.kubeErr ("Operation cannot be fulfilled: " ++ ALLOCATED_ERR)⟩

/-- A cluster whose Pod node is named but whose Node lacks a providerID. -/
def clusterNoProvider : ClusterInfo :=
  ⟨Except.ok (some "node-a"), fun _ => Except.ok none⟩

/-- An API on which only the probe below 255.255.255.0 fails: on the CIDR
    255.255.255.0/24 the first three boundary probes then all conform, and
    the check reaches the last + 1 address computation. -/
def apiTopErr : KubeApi :=
  ⟨false, fun t => if t = some 4294967039 then CreateResult.kubeErr "boom"
                   else CreateResult.ok 1⟩

/-- World with nothing discoverable: empty environment, empty resolver file,
    unknown provider. -/
def W0 : World :=
  ⟨envNone, ResolvFile.content [], clusterUnknown, apiAllErr, Except.ok []⟩

/-- World where only KUBE_DNS is pre-set in the environment. -/
def W1 : World :=
  ⟨fun k => if k = DNS_ENV then some "1.2.3.4" else none,
   ResolvFile.content ["nameserver 10.0.0.10\n"], clusterUnknown, apiAllErr,
   Except.ok []⟩

/-- World with an empty environment and a resolver file naming 10.0.0.10. -/
def W2 : World :=
  ⟨envNone, ResolvFile.content ["nameserver 10.0.0.10\n"], clusterUnknown,
   apiAllErr, Except.ok []⟩

/-- World on GCE where the sample probe succeeds but the metadata fetch
    raises an IO error. -/
def Wgce : World :=
  ⟨envNone, ResolvFile.ioError, clusterGce, apiAllOk, Except.error PyErr.ioError⟩

/-- World on AWS where every probe fails, so neither candidate validates. -/
def Waws : World :=
  ⟨envNone, ResolvFile.content [], clusterAws, apiAllErr, Except.ok []⟩

/-- Resolver lines with two nameserver directives and a bare keyword line. -/
def resolvLines3 : List String :=
  ["nameserver 1.1.1.1\n", "nameserver 10.0.0.10\n", "search\n"]

/-- World with an empty environment and the three-line resolver file. -/
def W3 : World :=
  ⟨envNone, ResolvFile.content resolvLines3, clusterUnknown, apiAllErr,
   Except.ok []⟩

/-- The network 10.0.0.0/24. -/
def net24 : IPNetwork := ⟨167772160, 24⟩

/-- The network 10.0.0.0/16. -/
def net16 : IPNetwork := ⟨167772160, 16⟩

/-- The network 10.3.0.0/24. -/
def net10v3 : IPNetwork := ⟨167968768, 24⟩


/-- A probe at a concrete address with the allocated error ignored never
    raises: it returns an IP exactly when probeOk holds. -/
theorem test_service_trace_some_true (api : KubeApi) (x : Int) :
    ∃ r t, test_service_trace api (some x) true = (Except.ok r, t) ∧
      r.isSome = probeOk api x := by
  unfold probeOk test_service test_service_trace
  cases h : api.createResult (some x) with
  | ok rr => simp [h]
  | kubeErr m =>
    by_cases hm : pyEndsWith m ALLOCATED_ERR = true <;> simp [h, hm]

/-- Evaluation of the range check on a parsed network whose boundary probe
    addresses exist inside the address space: the result is never an
    exception, and is the network exactly when the four boundary probes agree
    with the expectation. -/
theorem check_net_fst_eval (api : KubeApi) (net : IPNetwork)
    (hlo : 1 ≤ net.first) (hhi : net.last < 4294967295) :
    (check_service_iprange_net_trace api net).1 =
      Except.ok (
        if probeOk api ((net.first : Int) - 1) then none
        else if probeOk api ((net.first : Int) + 1) = false then none
        else if probeOk api ((net.last : Int) - 1) = false then none
        else if probeOk api ((net.last : Int) + 1) then none
        else some net) := by
  have hfl : net.first ≤ net.last := Nat.le_add_right _ _
  have ha1 : ipAddrArith ((net.first : Int) - 1) =
      Except.ok ((net.first : Int) - 1) := by
    unfold ipAddrArith
    rw [if_pos (by omega)]
  have ha2 : ipAddrArith ((net.first : Int) + 1) =
      Except.ok ((net.first : Int) + 1) := by
    unfold ipAddrArith
    rw [if_pos (by omega)]
  have ha3 : ipAddrArith ((net.last : Int) - 1) =
      Except.ok ((net.last : Int) - 1) := by
    unfold ipAddrArith
    rw [if_pos (by omega)]
  have ha4 : ipAddrArith ((net.last : Int) + 1) =
      Except.ok ((net.last : Int) + 1) := by
    unfold ipAddrArith
    rw [if_pos (by omega)]
  obtain ⟨r1, t1, e1, p1⟩ := test_service_trace_some_true api ((net.first : Int) - 1)
  obtain ⟨r2, t2, e2, p2⟩ := test_service_trace_some_true api ((net.first : Int) + 1)
  obtain ⟨r3, t3, e3, p3⟩ := test_service_trace_some_true api ((net.last : Int) - 1)
  obtain ⟨r4, t4, e4, p4⟩ := test_service_trace_some_true api ((net.last : Int) + 1)
  unfold check_service_iprange_net_trace
  simp only [ha1, ha2, ha3, ha4, e1, e2, e3, e4]
  cases r1 <;> cases r2 <;> cases r3 <;> cases r4 <;> simp_all

/-- C1 counterexample: the range check does not always return a falsy result
    on deviation.  On the CIDR 0.0.0.0/24 the address one below the first
    address does not exist, so the IPAddress subtraction raises IndexError
    before any probe runs (the trace is empty); on 255.255.255.0/24 the
    first three boundary probes conform and the check then raises at the
    last plus one computation after issuing three creates. -/
theorem c1_boundary_arithmetic_counterexample :
    check_service_iprange apiAllErr "0.0.0.0/24" = Except.error PyErr.indexError ∧
    (check_service_iprange_trace apiAllErr "0.0.0.0/24").2 = [] ∧
    check_service_iprange apiTopErr "255.255.255.0/24" =
      Except.error PyErr.indexError ∧
    (check_service_iprange_trace apiTopErr "255.255.255.0/24").2 =
      [Event.checkExists, Event.createSvc (some 4294967039),
       Event.checkExists, Event.createSvc (some 4294967041),
       Event.readClusterIP, Event.deleteProbe,
       Event.checkExists, Event.createSvc (some 4294967294),
       Event.readClusterIP, Event.deleteProbe] := by
  decide

/-- C1 amended: for a candidate CIDR both of whose boundary probe addresses
    exist (first address at least 1, last address at most 4294967294), the
    range check confirms the CIDR exactly when the probe one below the first
    address fails, the probes at first address plus one and last address
    minus one succeed (allocated responses counting as success, each probe
    being run with the allocated error ignored), and the probe one above the
    last address fails; any deviation then yields the falsy result rather
    than an exception.  For CIDRs touching the address-space boundary the
    IPAddress arithmetic on the probe target raises instead, as the
    counterexample shows. -/
theorem c1_range_check_boundary (api : KubeApi) (cidr : String) (net : IPNetwork)
    (hp : parseIPNetwork cidr = some net)
    (hlo : 1 ≤ net.first) (hhi : net.last < 4294967295) :
    (check_service_iprange api cidr = Except.ok (some net) ↔
      (probeOk api ((net.first : Int) - 1) = false ∧
       probeOk api ((net.first : Int) + 1) = true ∧
       probeOk api ((net.last : Int) - 1) = true ∧
       probeOk api ((net.last : Int) + 1) = false)) ∧
    (check_service_iprange api cidr = Except.ok (some net) ∨
     check_service_iprange api cidr = Except.ok none) := by
  have hc : check_service_iprange api cidr =
      (check_service_iprange_net_trace api net).1 := by
    unfold check_service_iprange check_service_iprange_trace
    rw [hp]
  rw [hc, check_net_fst_eval api net hlo hhi]
  cases h1 : probeOk api ((net.first : Int) - 1) <;>
  cases h2 : probeOk api ((net.first : Int) + 1) <;>
  cases h3 : probeOk api ((net.last : Int) - 1) <;>
  cases h4 : probeOk api ((net.last : Int) + 1) <;>
    simp

/-- C1 witness: the boundary characterisation instantiated on the network
    10.0.0.0/24 and an API where every create succeeds. -/
theorem c1_range_check_boundary_witness :
    (check_service_iprange apiAllOk "10.0.0.0/24" = Except.ok (some net24) ↔
      (probeOk apiAllOk ((net24.first : Int) - 1) = false ∧
       probeOk apiAllOk ((net24.first : Int) + 1) = true ∧
       probeOk apiAllOk ((net24.last : Int) - 1) = true ∧
       probeOk apiAllOk ((net24.last : Int) + 1) = false)) ∧
    (check_service_iprange apiAllOk "10.0.0.0/24" = Except.ok (some net24) ∨
     check_service_iprange apiAllOk "10.0.0.0/24" = Except.ok none) :=
  c1_range_check_boundary apiAllOk "10.0.0.0/24" net24 (by decide) (by decide)
    (by decide)

/-- C2: the single-address probe returns a truthy IP exactly when the create
    succeeds, yielding the cluster IP read back, or when the create fails
    with an allocated error while allocated errors are ignored, yielding the
    target itself; any other HTTP error yields the falsy result instead of
    propagating. -/
theorem c2_test_service_result (api : KubeApi) (ip : Int) (ig : Bool) :
    ((∃ v, test_service api (some ip) ig = Except.ok (some v)) ↔
      ((∃ r, api.createResult (some ip) = CreateResult.ok r) ∨
       (∃ m, api.createResult (some ip) = CreateResult.kubeErr m ∧
             pyEndsWith m ALLOCATED_ERR = true ∧ ig = true))) ∧
    (∀ r, api.createResult (some ip) = CreateResult.ok r →
       test_service api (some ip) ig = Except.ok (some r)) ∧
    (∀ m, api.createResult (some ip) = CreateResult.kubeErr m →
       pyEndsWith m ALLOCATED_ERR = true → ig = true →
       test_service api (some ip) ig = Except.ok (some ip)) ∧
    (∀ m, api.createResult (some ip) = CreateResult.kubeErr m →
       (pyEndsWith m ALLOCATED_ERR && ig) = false →
       test_service api (some ip) ig = Except.ok none) := by
  unfold test_service test_service_trace
  cases h : api.createResult (some ip) with
  | ok r => simp [h]
  | kubeErr m =>
    by_cases hm : pyEndsWith m ALLOCATED_ERR = true <;> cases ig <;>
      simp [h, hm]

/-- C2 witness: a create failing with the allocated message while ignoring
    allocated errors returns the target address itself. -/
theorem c2_test_service_result_witness :
    test_service apiAllocErr (some 5) true = Except.ok (some 5) :=
  (c2_test_service_result apiAllocErr 5 true).2.2.1
    ("Operation cannot be fulfilled: " ++ ALLOCATED_ERR) rfl (by decide) rfl

/-- C6: a missing nodeName field on the Pod, or a missing providerID field on
    the Node, makes provider detection return the unknown result instead of
    letting the KeyError propagate. -/
theorem c6_missing_fields (c : ClusterInfo) (name : String) :
    (c.podNodeName = Except.ok none → detect_cloud_provider c = Except.ok none) ∧
    (c.podNodeName = Except.ok (some name) → ¬ name = "minikubevm" →
      c.nodeProviderID name = Except.ok none →
      detect_cloud_provider c = Except.ok none) := by
  constructor
  · intro h
    simp [detect_cloud_provider, h]
  · intro h hn hp
    simp [detect_cloud_provider, h, hn, hp]

/-- C6 witness: detection on a Pod without a nodeName field, and on a node
    named node-a without a providerID field. -/
theorem c6_missing_fields_witness :
    detect_cloud_provider clusterUnknown = Except.ok none ∧
    detect_cloud_provider clusterNoProvider = Except.ok none :=
  ⟨(c6_missing_fields clusterUnknown "node-a").1 rfl,
   (c6_missing_fields clusterNoProvider "node-a").2 rfl (by decide) rfl⟩

/-- C7: a Pod on the node named minikubevm is detected as minikube whatever
    the Node providerID holds; the field is never consulted. -/
theorem c7_minikubevm (c : ClusterInfo)
    (h : c.podNodeName = Except.ok (some "minikubevm")) :
    detect_cloud_provider c = Except.ok (some "minikube") := by
  simp [detect_cloud_provider, h]

/-- C7 witness: detection returns minikube even when fetching the Node would
    raise, so the providerID is not read. -/
theorem c7_minikubevm_witness :
    detect_cloud_provider clusterMinikubeVm = Except.ok (some "minikube") :=
  c7_minikubevm clusterMinikubeVm rfl

/-- C8: in every probe, when a leftover probe Service exists it is deleted
    before the create is issued and no create occurs afterwards in the trace
    except the single one; and after a successful create the cluster IP is
    read back before the probe Service is deleted. -/
theorem c8_probe_operation_order (api : KubeApi) (t : Option Int) (ig : Bool) :
    (api.probeExists = true →
      ∃ rest, (test_service_trace api t ig).2 =
          Event.checkExists :: Event.deleteProbe :: Event.createSvc t :: rest ∧
        Event.createSvc t ∉ rest) ∧
    (∀ r, api.createResult t = CreateResult.ok r →
      (test_service_trace api t ig).2 =
        Event.checkExists :: (if api.probeExists then [Event.deleteProbe] else [])
          ++ [Event.createSvc t, Event.readClusterIP, Event.deleteProbe]) := by
  constructor
  · intro hex
    unfold test_service_trace
    cases h : api.createResult t with
    | ok r =>
      refine ⟨[Event.readClusterIP, Event.deleteProbe], by simp [hex], ?_⟩
      intro hm
      rcases List.mem_cons.mp hm with h1 | h1
      · exact Event.noConfusion h1
      · rcases List.mem_cons.mp h1 with h2 | h2
        · exact Event.noConfusion h2
        · exact (List.not_mem_nil _ h2)
    | kubeErr m =>
      by_cases hc : (pyEndsWith m ALLOCATED_ERR && ig) = true
      · cases t <;> exact ⟨[], by simp [hex, hc], List.not_mem_nil _⟩
      · exact ⟨[], by simp [hex, hc], List.not_mem_nil _⟩
  · intro r h
    simp [test_service_trace, h]

/-- C8 witness: the operation order on an API with a leftover probe Service
    whose create succeeds. -/
theorem c8_probe_operation_order_witness :
    (∃ rest, (test_service_trace apiLeftover (some 3) true).2 =
        Event.checkExists :: Event.deleteProbe :: Event.createSvc (some 3) :: rest ∧
      Event.createSvc (some 3) ∉ rest) ∧
    (test_service_trace apiLeftover (some 3) true).2 =
      Event.checkExists :: (if apiLeftover.probeExists then [Event.deleteProbe] else [])
        ++ [Event.createSvc (some 3), Event.readClusterIP, Event.deleteProbe] :=
  ⟨(c8_probe_operation_order apiLeftover (some 3) true).1 rfl,
   (c8_probe_operation_order apiLeftover (some 3) true).2 9 rfl⟩

/-- C9: the network-and-mask computation on the CIDR string 10.0.0.0/24
    yields the network address 10.0.0.0 and the subnet mask 255.255.255.0. -/
theorem c9_network_and_mask :
    network_and_mask "10.0.0.0/24" = some ("10.0.0.0", "255.255.255.0") := by
  decide

/-- C5: on a cluster detected as aws, the candidate 10.3.0.0/24 is validated
    first; when it validates, its network is returned and the second
    candidate is never probed; only when it yields the negative result is
    10.0.0.0/16 validated, its probes following in the trace, and its result
    returned. -/
theorem c5_aws_candidate_order (w : World)
    (hp : detect_cloud_provider w.cluster = Except.ok (some "aws")) :
    (∀ n, check_service_iprange w.api "10.3.0.0/24" = Except.ok (some n) →
        find_services_cidr w = Except.ok (some n) ∧
        (find_services_cidr_trace w).2 =
          (check_service_iprange_trace w.api "10.3.0.0/24").2) ∧
    (check_service_iprange w.api "10.3.0.0/24" = Except.ok none →
        find_services_cidr w = check_service_iprange w.api "10.0.0.0/16" ∧
        (find_services_cidr_trace w).2 =
          (check_service_iprange_trace w.api "10.3.0.0/24").2 ++
            (check_service_iprange_trace w.api "10.0.0.0/16").2) := by
  have hbody : find_services_cidr_body_trace w =
      (match check_service_iprange_trace w.api "10.3.0.0/24" with
       | (Except.error e, t1) => (Except.error e, t1)
       | (Except.ok ip_range, t1) =>
         if ip_range.isNone then
           match check_service_iprange_trace w.api "10.0.0.0/16" with
           | (Except.error e, t2) => (Except.error e, t1 ++ t2)
           | (Except.ok r2, t2) => (Except.ok r2, t1 ++ t2)
         else (Except.ok ip_range, t1)) := by
    unfold find_services_cidr_body_trace
    rw [hp]
    dsimp only
    rw [if_neg (by decide), if_pos rfl]
  have hp16 : parseIPNetwork "10.0.0.0/16" = some net16 := by decide
  have hpar : check_service_iprange_trace w.api "10.0.0.0/16" =
      check_service_iprange_net_trace w.api net16 := by
    unfold check_service_iprange_trace
    rw [hp16]
  cases h1 : check_service_iprange_trace w.api "10.3.0.0/24" with
  | mk r1 t1 =>
    have hc1 : check_service_iprange w.api "10.3.0.0/24" = r1 := by
      unfold check_service_iprange
      rw [h1]
    constructor
    · intro n hn
      have hr1 : r1 = Except.ok (some n) := hc1.symm.trans hn
      subst hr1
      refine ⟨?_, ?_⟩ <;>
        simp [find_services_cidr, find_services_cidr_trace, hbody, h1]
    · intro hn
      have hr1 : r1 = Except.ok none := hc1.symm.trans hn
      subst hr1
      cases h2 : check_service_iprange_net_trace w.api net16 with
      | mk r2 t2 =>
        have hr2 := check_net_fst_eval w.api net16 (by decide) (by decide)
        rw [h2] at hr2
        dsimp only at hr2
        subst hr2
        have hc2 : check_service_iprange w.api "10.0.0.0/16" =
            (check_service_iprange_net_trace w.api net16).1 := by
          unfold check_service_iprange
          rw [hpar]
        rw [hc2, h2]
        refine ⟨?_, ?_⟩ <;>
          simp [find_services_cidr, find_services_cidr_trace, hbody, h1,
                hpar, h2]

/-- C5 witness: on a concrete aws cluster where no probe succeeds, the first
    candidate yields the negative result and the run falls through to the
    second candidate. -/
theorem c5_aws_candidate_order_witness :
    find_services_cidr Waws = check_service_iprange Waws.api "10.0.0.0/16" ∧
    (find_services_cidr_trace Waws).2 =
      (check_service_iprange_trace Waws.api "10.3.0.0/24").2 ++
        (check_service_iprange_trace Waws.api "10.0.0.0/16").2 :=
  (c5_aws_candidate_order Waws (by decide)).2 (by decide)

/-- C4 counterexample: a run on GCE whose metadata fetch raises an IO error
    does not swallow it; find_services_cidr and the whole exporter abort
    with the error instead of falling back to no value. -/
theorem c4_metadata_io_error_counterexample :
    find_services_cidr Wgce = Except.error PyErr.ioError ∧
    export_vars Wgce = Except.error PyErr.ioError := by
  decide

/-- C4 amended: resolver-file IO errors are swallowed, yielding the empty
    dict; Kubernetes HTTP errors raised during CIDR discovery are caught and
    yield the falsy result; but an IO error from the cloud-metadata fetch
    propagates out of find_services_cidr uncaught and aborts the run. -/
theorem c4_io_error_handling_amended (w : World) :
    get_resolv ResolvFile.ioError = [] ∧
    (∀ m t, find_services_cidr_body_trace w =
        (Except.error (PyErr.kubeHTTPError m), t) →
      find_services_cidr w = Except.ok none) ∧
    (detect_cloud_provider w.cluster = Except.ok (some "gce") →
      ∀ v, test_service w.api none false = Except.ok (some v) →
      w.gceMeta = Except.error PyErr.ioError →
      find_services_cidr w = Except.error PyErr.ioError) := by
  refine ⟨rfl, ?_, ?_⟩
  · intro m t h
    simp [find_services_cidr, find_services_cidr_trace, h]
  · intro hp v hv hm
    cases ht : test_service_trace w.api none false with
    | mk r0 t0 =>
      have hr0 : r0 = Except.ok (some v) := by
        unfold test_service at hv
        rw [ht] at hv
        exact hv
      subst hr0
      simp [find_services_cidr, find_services_cidr_trace,
            find_services_cidr_body_trace, hp, ht, gce_kubeenv, hm]

/-- C4 witness: the propagation case instantiated on the concrete GCE world
    whose metadata fetch raises. -/
theorem c4_io_error_handling_amended_witness :
    find_services_cidr Wgce = Except.error PyErr.ioError :=
  (c4_io_error_handling_amended Wgce).2.2 (by decide) 7 (by decide) rfl

/-- C3 counterexample: with DNS_SEARCH_ARR unset, KUBE_DNS_SEARCH unset and
    no search entry in the resolver file, the exporter still emits a
    DNS_SEARCH_ARR assignment, holding the literal text None, instead of
    emitting nothing for that variable. -/
theorem c3_search_arr_none_counterexample :
    export_vars W0 = Except.ok "export DNS_SEARCH_ARR=(\tNone\t)\n" ∧
    W0.env DNS_SEARCH_ARR_ENV = none ∧
    W0.env DNS_SEARCH_ENV = none ∧
    dictGet (get_resolv W0.resolvFile) "search" = none := by
  decide

/-- C3 amended: the exporter output is the concatenation of four per-variable
    segments; KUBE_DNS, KUBE_SVC_NET and KUBE_SVC_MASK are emitted only when
    the variable is unset or empty and a discovered value exists, while
    DNS_SEARCH_ARR is emitted whenever the variable is unset or empty, with
    the literal text None when no discovered value exists.  With KUBE_DNS
    pre-set no KUBE_DNS assignment appears, and with an empty environment and
    a resolver nameserver 10.0.0.10 the KUBE_DNS line is emitted. -/
theorem c3_export_per_variable (w : World) (c : Option IPNetwork)
    (h : find_services_cidr w = Except.ok c) :
    export_vars w = Except.ok
      (spec_dns_line w ++ spec_search_line w ++ spec_net_line w c ++
        spec_mask_line w c) ∧
    export_vars W1 = Except.ok "export DNS_SEARCH_ARR=(\tNone\t)\n" ∧
    export_vars W2 = Except.ok
      "export KUBE_DNS=\"10.0.0.10\"\nexport DNS_SEARCH_ARR=(\tNone\t)\n" := by
  refine ⟨?_, by decide, by decide⟩
  unfold export_vars spec_dns_line spec_search_line spec_net_line spec_mask_line
  rw [h]
  cases c with
  | none =>
    cases hd : dictGet (get_resolv w.resolvFile) "nameserver" <;>
    by_cases h1 : isNoneOrEmpty (w.env DNS_ENV) = true <;>
    by_cases h2 : isNoneOrEmpty (w.env DNS_SEARCH_ARR_ENV) = true <;>
      (simp [h1, h2, hd, String.empty_append, String.append_empty] <;>
        simp only [String.append_assoc])
  | some net =>
    cases hd : dictGet (get_resolv w.resolvFile) "nameserver" <;>
    by_cases h1 : isNoneOrEmpty (w.env DNS_ENV) = true <;>
    by_cases h2 : isNoneOrEmpty (w.env DNS_SEARCH_ARR_ENV) = true <;>
    by_cases h3 : isNoneOrEmpty (w.env SVC_NETWORK_ENV) = true <;>
    by_cases h4 : isNoneOrEmpty (w.env SVC_MASK_ENV) = true <;>
      (simp [h1, h2, h3, h4, hd, String.empty_append, String.append_empty] <;>
        simp only [String.append_assoc])

/-- C3 witness: the segment equation instantiated on the world with an empty
    environment and a resolver file naming 10.0.0.10. -/
theorem c3_export_per_variable_witness :
    export_vars W2 = Except.ok
      (spec_dns_line W2 ++ spec_search_line W2 ++ spec_net_line W2 none ++
        spec_mask_line W2 none) :=
  (c3_export_per_variable W2 none (by decide)).1

/-- Folding the resolver lines into the entry list commutes with the python
    dict get: the lookup sees the last matching line, over any accumulator. -/
theorem dictGet_foldl_resolv (k : String) (lines : List String) :
    ∀ acc : List (String × String),
      dictGet (lines.foldl (fun acc line =>
        match lineEntry line with
        | some kv => acc ++ [kv]
        | none => acc) acc) k =
      lines.foldl (fun r line =>
        match pySplitMax1 line with
        | [k2, v] => if k2 = k then some (rstripNewline v) else r
        | _ => r) (dictGet acc k) := by
  induction lines with
  | nil => intro acc; rfl
  | cons line rest ih =>
    intro acc
    simp only [List.foldl_cons]
    rw [ih]
    congr 1
    unfold lineEntry
    rcases hsp : pySplitMax1 line with _ | ⟨a, _ | ⟨b, _ | ⟨c2, rest2⟩⟩⟩ <;>
      simp [dictGet, hsp, List.foldl_append]

/-- C10: the parsed resolver dictionary maps each directive keyword to the
    value of the last line carrying it, trailing newline stripped, and lines
    with no value are omitted; consequently, with KUBE_DNS unset the exporter
    emits the nameserver value of the last such line. -/
theorem c10_resolv_last_directive (lines : List String) (k : String) :
    dictGet (get_resolv (ResolvFile.content lines)) k =
      lastDirectiveValue lines k ∧
    (∀ w v c, w.resolvFile = ResolvFile.content lines →
      isNoneOrEmpty (w.env DNS_ENV) = true →
      lastDirectiveValue lines "nameserver" = some v →
      find_services_cidr w = Except.ok c →
      ∃ rest, export_vars w =
        Except.ok ("export " ++ DNS_ENV ++ "=\"" ++ v ++ "\"\n" ++ rest)) := by
  have main : ∀ k2, dictGet (get_resolv (ResolvFile.content lines)) k2 =
      lastDirectiveValue lines k2 := by
    intro k2
    unfold get_resolv lastDirectiveValue
    rw [dictGet_foldl_resolv]
    rfl
  refine ⟨main k, ?_⟩
  intro w v c hres henv hlast hfind
  unfold export_vars
  rw [hfind, hres]
  cases c with
  | none =>
    by_cases h2 : isNoneOrEmpty (w.env DNS_SEARCH_ARR_ENV) = true
    · refine ⟨"export " ++ DNS_SEARCH_ARR_ENV ++ "=(\t"
        ++ pyStrOpt (if isNoneOrEmpty (w.env DNS_SEARCH_ENV) then
             dictGet (get_resolv (ResolvFile.content lines)) "search"
           else w.env DNS_SEARCH_ENV) ++ "\t)\n", ?_⟩
      simp [henv, h2, main, hlast, String.empty_append, String.append_empty]
      simp only [String.append_assoc]
    · refine ⟨"", ?_⟩
      simp [henv, h2, main, hlast, String.empty_append, String.append_empty]
  | some net =>
    by_cases h2 : isNoneOrEmpty (w.env DNS_SEARCH_ARR_ENV) = true <;>
    by_cases h3 : isNoneOrEmpty (w.env SVC_NETWORK_ENV) = true <;>
    by_cases h4 : isNoneOrEmpty (w.env SVC_MASK_ENV) = true <;>
      exact ⟨_, by
        simp [henv, h2, h3, h4, main, hlast, String.empty_append,
              String.append_empty]
        simp only [String.append_assoc]
        rfl⟩

/-- C10 witness: with two nameserver lines the exporter emits the value of
    the second, and the dictionary lookup agrees with the last-line value. -/
theorem c10_resolv_last_directive_witness :
    dictGet (get_resolv (ResolvFile.content resolvLines3)) "nameserver" =
      lastDirectiveValue resolvLines3 "nameserver" ∧
    ∃ rest, export_vars W3 =
      Except.ok ("export " ++ DNS_ENV ++ "=\"" ++ "10.0.0.10" ++ "\"\n" ++ rest) :=
  ⟨(c10_resolv_last_directive resolvLines3 "nameserver").1,
   (c10_resolv_last_directive resolvLines3 "nameserver").2 W3 "10.0.0.10" none
     rfl rfl (by decide) (by decide)⟩

end Kube
